import Mathlib

/-!
Shallow embedding of the Amazon SP-API dashboard repository
(`Dashboard.py`, `streamlit_app.py`, `Listing_report.py`, `sales_order4.py`,
`Extract_sku_details3.py`) and proofs about its specification.

Monetary amounts are modelled as rationals, timestamps as integers
(seconds on an abstract timeline), byte strings as lists of `Fin 256`,
and Python dictionaries with optional keys as structures of `Option`s.
External library calls (gzip/zlib decompression, `pd.read_csv`) are
modelled as function parameters of the embedded code.
-/

/-! ## Data model: financial events (`Dashboard.py`, `process_financial_events`) -/

/-- A money dictionary as it appears in the Finances API payload:
`{'CurrencyCode': ..., 'CurrencyAmount': ...}` with both keys optional.
`none` at the `Option MoneyDict` use sites stands for a missing or empty
(hence falsy) dictionary; `some m` stands for a non-empty one. -/
structure MoneyDict where
  CurrencyCode : Option String
  CurrencyAmount : Option ℚ
deriving DecidableEq, Repr

/-- One entry of an item's `ItemChargeList`. -/
structure Charge where
  ChargeType : Option String
  ChargeAmount : Option MoneyDict
deriving DecidableEq, Repr

/-- One entry of an item's `ItemFeeList`; only `FeeAmount` is read by the code. -/
structure Fee where
  FeeAmount : Option MoneyDict
deriving DecidableEq, Repr

/-- One entry of an event's `ShipmentItemList`. -/
structure ShipmentItem where
  SellerSKU : Option String
  QuantityShipped : Option ℤ
  ItemChargeList : List Charge
  ItemFeeList : List Fee
deriving DecidableEq, Repr

/-- One entry of the payload's `ShipmentEventList`. -/
structure ShipmentEvent where
  AmazonOrderId : Option String
  PostedDate : Option String
  MarketplaceName : Option String
  ShipmentItemList : List ShipmentItem
deriving DecidableEq, Repr

/-- The financial-events payload; the code reads
`payload.get('FinancialEvents', {}).get('ShipmentEventList', [])`,
a missing key yielding the empty list. -/
structure FinancialEventsPayload where
  ShipmentEventList : List ShipmentEvent
deriving DecidableEq, Repr

/-- One output row of the flattener (`processed_records.append({...})`). -/
structure FinRow where
  amazonOrderId : Option String
  purchaseDate : Option String
  salesChannel : Option String
  sku : Option String
  quantityPurchased : Option ℤ
  currency : Option String
  totalRevenue : ℚ
  netProceeds : ℚ
  amazonFees : ℚ
deriving DecidableEq, Repr

/-- `charge.get('ChargeAmount', {}).get('CurrencyAmount', 0)`. -/
def chargeAmountValue (c : Charge) : ℚ :=
  ((c.ChargeAmount.bind MoneyDict.CurrencyAmount).getD 0)

/-- `fee.get('FeeAmount', {}).get('CurrencyAmount', 0)`. -/
def feeAmountValue (f : Fee) : ℚ :=
  ((f.FeeAmount.bind MoneyDict.CurrencyAmount).getD 0)

/-- One iteration of the charge loop of `process_financial_events`:
the accumulator holds `(item_price, shipping_price)`. -/
def chargeStep (acc : ℚ × ℚ) (c : Charge) : ℚ × ℚ :=
  if c.ChargeType = some "Principal" then (acc.1 + chargeAmountValue c, acc.2)
  else if c.ChargeType = some "ShippingCharge" then (acc.1, acc.2 + chargeAmountValue c)
  else acc

/-- The charge loop: `item_price = 0; shipping_price = 0; for charge in ...`. -/
def itemChargeTotals (item : ShipmentItem) : ℚ × ℚ :=
  item.ItemChargeList.foldl chargeStep (0, 0)

/-- The fee loop: `amazon_fees = 0; for fee in item.get('ItemFeeList', []) ...`. -/
def itemFeesTotal (item : ShipmentItem) : ℚ :=
  item.ItemFeeList.foldl (fun acc f => acc + feeAmountValue f) 0

/-- `next((c.get('ChargeAmount', {}).get('CurrencyCode')
for c in item.get('ItemChargeList', []) if c.get('ChargeAmount')), None)`:
the currency code (itself possibly absent) of the first charge whose
`ChargeAmount` dictionary is truthy. -/
def itemCurrency (item : ShipmentItem) : Option String :=
  (item.ItemChargeList.find? (fun c => c.ChargeAmount.isSome)).bind
    (fun c => c.ChargeAmount.bind (fun m => m.CurrencyCode))

/-- The record appended for one shipment item of one event. -/
def processItem (event : ShipmentEvent) (item : ShipmentItem) : FinRow :=
  let totals := itemChargeTotals item
  let fees := itemFeesTotal item
  { amazonOrderId := event.AmazonOrderId
    purchaseDate := event.PostedDate
    salesChannel := event.MarketplaceName
    sku := item.SellerSKU
    quantityPurchased := item.QuantityShipped
    currency := itemCurrency item
    totalRevenue := totals.1 + totals.2
    netProceeds := (totals.1 + totals.2) + fees
    amazonFees := fees }

/-- `process_financial_events`: the nested event/item loops; an empty record
list is returned as the zero-row table `pd.DataFrame()`, here `[]`. -/
def process_financial_events (p : FinancialEventsPayload) : List FinRow :=
  p.ShipmentEventList.flatMap (fun e => e.ShipmentItemList.map (processItem e))

/-- The synthetic shipment item of the spec's test: one `Principal` charge of
100, one `ShippingCharge` of 10, one fee of -15. -/
def syntheticItem : ShipmentItem :=
  { SellerSKU := some "SKU-1"
    QuantityShipped := some 1
    ItemChargeList :=
      [ { ChargeType := some "Principal"
          ChargeAmount := some { CurrencyCode := some "USD", CurrencyAmount := some 100 } },
        { ChargeType := some "ShippingCharge"
          ChargeAmount := some { CurrencyCode := some "USD", CurrencyAmount := some 10 } } ]
    ItemFeeList :=
      [ { FeeAmount := some { CurrencyCode := some "USD", CurrencyAmount := some (-15) } } ] }

/-- A payload containing exactly the synthetic item. -/
def syntheticPayload : FinancialEventsPayload :=
  { ShipmentEventList :=
      [ { AmazonOrderId := some "111-0000000-0000000"
          PostedDate := some "2024-01-01T00:00:00Z"
          MarketplaceName := some "Amazon.com"
          ShipmentItemList := [syntheticItem] } ] }

/-! ## Report polling (`streamlit_app.py` / `Listing_report.py` `get_amazon_report`,
`sales_order4.py` `download_and_process_report`) -/

/-- The part of a `get_report` response payload that the polling loops read. -/
structure PollPayload where
  processingStatus : Option String
  reportDocumentId : Option String
deriving DecidableEq, Repr

/-- Outcome of the polling loop of `get_amazon_report`. -/
inductive PollOutcome where
  | done (docId : Option String)
  | failed (status : Option String)
  | timedOut
deriving DecidableEq, Repr

/-- `streamlit_app.py` line 38: `POLL_INTERVAL_SECONDS = 10`. -/
def streamlit_POLL_INTERVAL_SECONDS : ℕ := 10

/-- `streamlit_app.py` line 39: `MAX_POLL_ATTEMPTS = 120`. -/
def streamlit_MAX_POLL_ATTEMPTS : ℕ := 120

/-- `Listing_report.py` line 36: `POLL_INTERVAL_SECONDS = 15`. -/
def listing_POLL_INTERVAL_SECONDS : ℕ := 15

/-- `Listing_report.py` line 37: `MAX_POLL_ATTEMPTS = 120`. -/
def listing_MAX_POLL_ATTEMPTS : ℕ := 120

/-- `sales_order4.py` line 93: `time.sleep(15)` inside the poll loop. -/
def sales_POLL_INTERVAL_SECONDS : ℕ := 15

/-- `sales_order4.py` line 92: `for _ in range(20)`. -/
def sales_POLL_ATTEMPTS : ℕ := 20

/-- Whether a polled status is one of the three terminal statuses. -/
def isTerminalStatus (s : Option String) : Bool :=
  s == some "DONE" || s == some "FATAL" || s == some "CANCELLED"

/-- The poll loop of `get_amazon_report` (identical in `streamlit_app.py`
and `Listing_report.py`): `for attempt in range(MAX_POLL_ATTEMPTS)` with the
k-th `get_report` call modelled as `get k`; on `DONE` break with the payload's
`reportDocumentId`, on `FATAL`/`CANCELLED` return immediately, otherwise keep
polling; exhausting the range is the timeout path. Returns the outcome and the
number of polls performed. -/
def pollReportAux (get : ℕ → PollPayload) : ℕ → ℕ → PollOutcome × ℕ
  | _, 0 => (.timedOut, 0)
  | attempt, n + 1 =>
    let p := get attempt
    if p.processingStatus = some "DONE" then (.done p.reportDocumentId, 1)
    else if p.processingStatus = some "FATAL" ∨ p.processingStatus = some "CANCELLED" then
      (.failed p.processingStatus, 1)
    else
      let r := pollReportAux get (attempt + 1) n
      (r.1, r.2 + 1)

/-- The poll loop starting at attempt 0 with a given attempt ceiling. -/
def pollReport (get : ℕ → PollPayload) (maxAttempts : ℕ) : PollOutcome × ℕ :=
  pollReportAux get 0 maxAttempts

/-- After the loop, `streamlit_app.py` runs
`if not report_document_id: st.warning(...); return None` and otherwise
proceeds with the document id: a missing (or falsy empty) id — including the
timeout and failure paths — yields the null result. -/
def get_amazon_report_docRef (get : ℕ → PollPayload) : Option String :=
  match (pollReport get streamlit_MAX_POLL_ATTEMPTS).1 with
  | .done d =>
    match d with
    | none => none
    | some s => if s = "" then none else some s
  | .failed _ => none
  | .timedOut => none

/-- The poll loop of `download_and_process_report` (`sales_order4.py`):
`for _ in range(20)`: fetch the payload, break if the status is any of
`DONE`/`FATAL`/`CANCELLED`; when the range is exhausted the variables keep the
last fetched payload. Returns the final payload (`none` only if the fuel was 0,
which the code never does) and the number of polls performed. -/
def sales_pollAux (get : ℕ → PollPayload) : ℕ → ℕ → Option PollPayload × ℕ
  | _, 0 => (none, 0)
  | attempt, n + 1 =>
    let p := get attempt
    if p.processingStatus = some "DONE" ∨ p.processingStatus = some "FATAL" ∨
        p.processingStatus = some "CANCELLED" then (some p, 1)
    else if n = 0 then (some p, 1)
    else
      let r := sales_pollAux get (attempt + 1) n
      (r.1, r.2 + 1)

/-- The poll-and-check phase of `download_and_process_report`: after the loop,
`if status != 'DONE': st.error(...); return None`, otherwise proceed with
`report_status_payload['reportDocumentId']`. -/
def download_and_process_report_poll (get : ℕ → PollPayload) : Option (Option String) :=
  match (sales_pollAux get 0 sales_POLL_ATTEMPTS).1 with
  | none => none
  | some p => if p.processingStatus = some "DONE" then some p.reportDocumentId else none

/-! ## Document decompression and decoding -/

/-- `streamlit_app.py` lines 153-159: decompress with `gzip.decompress` when
the document's `compressionAlgorithm` is `'GZIP'`, with `zlib.decompress` when
it is `'ZLIB'`, otherwise keep the raw bytes. The two library decompressors
are parameters of the embedding. -/
def streamlit_decompress (gzipDecompress zlibDecompress : List (Fin 256) → List (Fin 256))
    (alg : Option String) (content : List (Fin 256)) : List (Fin 256) :=
  if alg = some "GZIP" then gzipDecompress content
  else if alg = some "ZLIB" then zlibDecompress content
  else content

/-- `Listing_report.py` lines 138-139: only
`if compression_algorithm == 'GZIP': ... gzip.decompress(...)`;
any other indicator keeps the raw bytes. -/
def listing_decompress (gzipDecompress : List (Fin 256) → List (Fin 256))
    (alg : Option String) (content : List (Fin 256)) : List (Fin 256) :=
  if alg = some "GZIP" then gzipDecompress content
  else content

/-- `sales_order4.py` line 114:
`gzip.decompress(response.content) if compression == 'GZIP' else response.content`. -/
def sales_decompress (gzipDecompress : List (Fin 256) → List (Fin 256))
    (alg : Option String) (content : List (Fin 256)) : List (Fin 256) :=
  if alg = some "GZIP" then gzipDecompress content
  else content

/-- Whether a byte is a UTF-8 continuation byte (`0x80..0xBF`). -/
def isUtf8Cont (b : Fin 256) : Bool := 0x80 ≤ b.val && b.val ≤ 0xBF

/-- Strict UTF-8 decoding of a byte string into its list of code points
(the behaviour of Python's `bytes.decode('utf-8')`: overlong encodings,
surrogates and values above `0x10FFFF` are rejected, yielding `none`). -/
def utf8Decode : List (Fin 256) → Option (List ℕ)
  | [] => some []
  | b :: rest =>
    if b.val < 0x80 then (utf8Decode rest).map (b.val :: ·)
    else if 0xC2 ≤ b.val ∧ b.val ≤ 0xDF then
      match rest with
      | c :: rest2 =>
        if isUtf8Cont c then
          (utf8Decode rest2).map (((b.val - 0xC0) * 0x40 + (c.val - 0x80)) :: ·)
        else none
      | [] => none
    else if 0xE0 ≤ b.val ∧ b.val ≤ 0xEF then
      match rest with
      | c :: d :: rest2 =>
        let lowOk : Bool :=
          if b.val = 0xE0 then 0xA0 ≤ c.val && c.val ≤ 0xBF
          else if b.val = 0xED then 0x80 ≤ c.val && c.val ≤ 0x9F
          else isUtf8Cont c
        if lowOk && isUtf8Cont d then
          (utf8Decode rest2).map
            (((b.val - 0xE0) * 0x1000 + (c.val - 0x80) * 0x40 + (d.val - 0x80)) :: ·)
        else none
      | _ => none
    else if 0xF0 ≤ b.val ∧ b.val ≤ 0xF4 then
      match rest with
      | c :: d :: e :: rest2 =>
        let lowOk : Bool :=
          if b.val = 0xF0 then 0x90 ≤ c.val && c.val ≤ 0xBF
          else if b.val = 0xF4 then 0x80 ≤ c.val && c.val ≤ 0x8F
          else isUtf8Cont c
        if lowOk && isUtf8Cont d && isUtf8Cont e then
          (utf8Decode rest2).map
            (((b.val - 0xF0) * 0x40000 + (c.val - 0x80) * 0x1000 +
              (d.val - 0x80) * 0x40 + (e.val - 0x80)) :: ·)
        else none
      | _ => none
    else none

/-- Latin-1 decoding (`bytes.decode('latin-1')`): each byte is its own code
point; total on every byte string. -/
def latin1Decode (bs : List (Fin 256)) : List ℕ :=
  bs.map Fin.val

/-- The decode step shared by all three report downloaders:
`try: content.decode('utf-8') except UnicodeDecodeError: content.decode('latin-1')`. -/
def decodeReportBytes (bs : List (Fin 256)) : List ℕ :=
  match utf8Decode bs with
  | some s => s
  | none => latin1Decode bs

/-- Python's `str.strip()` whitespace set (on ASCII): space, tab, newline,
carriage return, vertical tab, form feed. -/
def isPythonSpace (c : ℕ) : Bool :=
  c = 32 || c = 9 || c = 10 || c = 13 || c = 11 || c = 12

/-- `streamlit_app.py` lines 169-175: `if not report_text.strip(): return
pd.DataFrame()` (the zero-row table, here `some []`), otherwise the text is
parsed by `pd.read_csv`, modelled as the `parse` parameter. The decoded text
is a list of code points (the output type of `decodeReportBytes`);
`not report_text.strip()` holds exactly when every character is whitespace. -/
def get_amazon_report_finalize (parse : List ℕ → List (List ℕ)) (text : List ℕ) :
    Option (List (List ℕ)) :=
  if text.all isPythonSpace then some []
  else some (parse text)

/-! ## Token cache (`Extract_sku_details3.py`, `get_access_token`) -/

/-- One entry of the global `access_token_info` cache:
`{"token": ..., "expires_at": ...}`. -/
structure TokenState where
  token : Option String
  expires_at : Option ℤ
deriving DecidableEq, Repr

/-- The global cache keyed by `(region_group, account)`; a key that was never
touched holds the freshly initialised `{"token": None, "expires_at": None}`,
which is observationally what the code inserts on first access. -/
def TokenCache : Type := String × String → TokenState

/-- `get_access_token`: if the cached entry has a (truthy) token and expiry
and `datetime.now() < expires_at`, return the cached token with no network
call; otherwise (credentials permitting) perform one token-refresh request
(`requests.post`, modelled by `refreshResponse`: `some (access_token,
expires_in)` on success, `none` on a transport/status failure) and on success
store the token with `expires_at = now + timedelta(seconds=expires_in - 60)`.
Returns the token (or `none`), the updated cache, and the number of
token-refresh network calls issued. -/
def get_access_token (cache : TokenCache) (key : String × String) (now : ℤ)
    (credsPresent : Bool) (refreshResponse : Option (String × ℤ)) :
    Option String × TokenCache × ℕ :=
  let st := cache key
  let doRefresh : Option String × TokenCache × ℕ :=
    if credsPresent then
      match refreshResponse with
      | some (tok, expiresIn) =>
        (some tok,
         fun k => if k = key then { token := some tok, expires_at := some (now + (expiresIn - 60)) }
                  else cache k,
         1)
      | none => (none, cache, 1)
    else (none, cache, 0)
  match st.token, st.expires_at with
  | some t, some exp => if now < exp then (some t, cache, 0) else doRefresh
  | _, _ => doRefresh

/-! ## Currency conversion (`Dashboard.py`, `convert_df_to_inr`) -/

/-- The columns of the financial table that `convert_df_to_inr` touches.
The `expenses`/`courierCharges` columns only exist when an expense file was
merged; their presence is a per-table flag passed alongside the rows. -/
structure MoneyRow where
  currency : Option String
  totalRevenue : ℚ
  netProceeds : ℚ
  amazonFees : ℚ
  expenses : ℚ
  courierCharges : ℚ
deriving DecidableEq, Repr

/-- A converted row: the original columns plus the INR columns added by
`convert_df_to_inr` (the helper `rate` column is dropped at the end). -/
structure ConvertedRow where
  currency : Option String
  totalRevenue : ℚ
  netProceeds : ℚ
  amazonFees : ℚ
  expenses : ℚ
  courierCharges : ℚ
  totalRevenueINR : ℚ
  netProceedsINR : ℚ
  amazonFeesINR : ℚ
  expensesINR : Option ℚ
  courierChargesINR : Option ℚ
deriving DecidableEq, Repr

/-- `df['currency'].map(rates).fillna(1.0)` for one row: an absent currency
(`NaN`) or a currency missing from the rate table falls back to 1.0. -/
def lookupRate (rates : List (String × ℚ)) (currency : Option String) : ℚ :=
  match currency with
  | none => 1
  | some code => (rates.lookup code).getD 1

/-- The per-row effect of `convert_df_to_inr`'s column arithmetic. -/
def convertRow (rates : List (String × ℚ)) (hasExpenses hasCourier : Bool)
    (r : MoneyRow) : ConvertedRow :=
  let rate := lookupRate rates r.currency
  { currency := r.currency
    totalRevenue := r.totalRevenue
    netProceeds := r.netProceeds
    amazonFees := r.amazonFees
    expenses := r.expenses
    courierCharges := r.courierCharges
    totalRevenueINR := r.totalRevenue * rate
    netProceedsINR := r.netProceeds * rate
    amazonFeesINR := r.amazonFees * rate
    expensesINR := if hasExpenses then some (r.expenses * rate) else none
    courierChargesINR := if hasCourier then some (r.courierCharges * rate) else none }

/-- `convert_df_to_inr`: `if not rates: return df` (the table is returned
untouched, left injection); otherwise every row gets the INR columns. -/
def convert_df_to_inr (rates : List (String × ℚ)) (hasExpenses hasCourier : Bool)
    (rows : List MoneyRow) : List MoneyRow ⊕ List ConvertedRow :=
  if rates.isEmpty then Sum.inl rows
  else Sum.inr (rows.map (convertRow rates hasExpenses hasCourier))

/-! ## Claim-side definition for C7 (refinement comparison) -/

/-- The spec's reading of the currency rule, for comparison with
`itemCurrency`: the currency code of the first charge entry that itself
declares a currency code. -/
def specFirstDeclaredCurrency (item : ShipmentItem) : Option String :=
  (item.ItemChargeList.find? (fun c => (c.ChargeAmount.bind (fun m => m.CurrencyCode)).isSome)).bind
    (fun c => c.ChargeAmount.bind (fun m => m.CurrencyCode))

/-- The shipment item separating `itemCurrency` from
`specFirstDeclaredCurrency`: the first charge carries an amount dictionary
without a currency code, the second declares `USD`. -/
def mixedCurrencyItem : ShipmentItem :=
  { SellerSKU := some "SKU-2"
    QuantityShipped := some 1
    ItemChargeList :=
      [ { ChargeType := some "Principal"
          ChargeAmount := some { CurrencyCode := none, CurrencyAmount := some 5 } },
        { ChargeType := some "ShippingCharge"
          ChargeAmount := some { CurrencyCode := some "USD", CurrencyAmount := some 3 } } ]
    ItemFeeList := [] }

/-- An event wrapping `mixedCurrencyItem`. -/
def mixedCurrencyEvent : ShipmentEvent :=
  { AmazonOrderId := some "111-0000000-0000001"
    PostedDate := some "2024-01-02T00:00:00Z"
    MarketplaceName := some "Amazon.com"
    ShipmentItemList := [mixedCurrencyItem] }

/-! ## Concrete mock inputs used as test vectors -/

/-- The spec's mock status sequence `[in-progress, in-progress, done]`
(constant `DONE` with a document id from the third poll on). -/
def mockDoneSeq (i : ℕ) : PollPayload :=
  if i < 2 then { processingStatus := some "IN_PROGRESS", reportDocumentId := none }
  else { processingStatus := some "DONE", reportDocumentId := some "doc-1" }

/-- A status sequence that never reaches a terminal state. -/
def mockStuckSeq (_ : ℕ) : PollPayload :=
  { processingStatus := some "IN_PROGRESS", reportDocumentId := none }

/-- A status sequence that fails fatally on the first poll. -/
def mockFatalSeq (_ : ℕ) : PollPayload :=
  { processingStatus := some "FATAL", reportDocumentId := none }

/-- A concrete token cache holding one valid entry everywhere. -/
def witnessCache : TokenCache :=
  fun _ => { token := some "cached-token", expires_at := some 1000 }

/-- A shipment item with an empty charge list (no currency anywhere). -/
def noChargeItem : ShipmentItem :=
  { SellerSKU := some "SKU-3"
    QuantityShipped := some 2
    ItemChargeList := []
    ItemFeeList := [] }

/-! ## Helper lemmas -/

/-- The charge loop's first accumulator is the sum of the `Principal`
charge amounts (plus its starting value). -/
theorem foldl_chargeStep_fst (l : List Charge) :
    ∀ a b : ℚ, (l.foldl chargeStep (a, b)).1 =
      a + ((l.filter (fun c => c.ChargeType = some "Principal")).map chargeAmountValue).sum := by
  induction l with
  | nil => intro a b; simp
  | cons c l ih =>
    intro a b
    by_cases h1 : c.ChargeType = some "Principal"
    · simp [chargeStep, h1, List.filter_cons, ih, add_assoc]
    · by_cases h2 : c.ChargeType = some "ShippingCharge"
      · simp [chargeStep, h1, h2, List.filter_cons, ih]
      · simp [chargeStep, h1, h2, List.filter_cons, ih]

/-- The charge loop's second accumulator is the sum of the `ShippingCharge`
charge amounts (plus its starting value). -/
theorem foldl_chargeStep_snd (l : List Charge) :
    ∀ a b : ℚ, (l.foldl chargeStep (a, b)).2 =
      b + ((l.filter (fun c => c.ChargeType = some "ShippingCharge")).map chargeAmountValue).sum := by
  induction l with
  | nil => intro a b; simp
  | cons c l ih =>
    intro a b
    by_cases h1 : c.ChargeType = some "Principal"
    · have h2 : ¬ c.ChargeType = some "ShippingCharge" := by simp [h1]
      simp [chargeStep, h1, h2, List.filter_cons, ih]
    · by_cases h2 : c.ChargeType = some "ShippingCharge"
      · simp [chargeStep, h1, h2, List.filter_cons, ih, add_assoc]
      · simp [chargeStep, h1, h2, List.filter_cons, ih]

/-- The fee loop is the sum of the fee amounts (plus its starting value). -/
theorem foldl_feeAmount (l : List Fee) :
    ∀ a : ℚ, l.foldl (fun acc f => acc + feeAmountValue f) a = a + (l.map feeAmountValue).sum := by
  induction l with
  | nil => intro a; simp
  | cons f l ih => intro a; simp [ih, add_assoc]

/-- Unfolding of the terminal-status test. -/
theorem isTerminalStatus_iff (s : Option String) :
    isTerminalStatus s = true ↔
      (s = some "DONE" ∨ s = some "FATAL" ∨ s = some "CANCELLED") := by
  simp [isTerminalStatus, or_assoc]

/-- A run of non-terminal statuses exhausts the poll loop: it times out after
exactly the given number of polls. -/
theorem pollReportAux_timeout (get : ℕ → PollPayload) :
    ∀ (n attempt : ℕ),
      (∀ i, i < n → isTerminalStatus ((get (attempt + i)).processingStatus) = false) →
      pollReportAux get attempt n = (.timedOut, n) := by
  intro n
  induction n with
  | zero => intro attempt _; rfl
  | succ n ih =>
    intro attempt h
    have h0 := h 0 (Nat.succ_pos n)
    rw [Nat.add_zero] at h0
    rw [isTerminalStatus] at h0
    simp only [Bool.or_eq_false_iff, beq_eq_false_iff_ne, ne_eq] at h0
    obtain ⟨⟨hd, hf⟩, hc⟩ := h0
    have hrec := ih (attempt + 1) (by
      intro i hi
      have := h (i + 1) (by omega)
      have harith : attempt + (i + 1) = attempt + 1 + i := by omega
      rwa [harith] at this)
    simp [pollReportAux, hd, hf, hc, hrec]

/-- The poll loop stops at the first `DONE` status: after `k` non-terminal
polls followed by a `DONE` poll inside the ceiling, the loop returns the
payload's document id having made exactly `k + 1` polls. -/
theorem pollReportAux_done (get : ℕ → PollPayload) :
    ∀ (k n attempt : ℕ), k < n →
      (∀ i, i < k → isTerminalStatus ((get (attempt + i)).processingStatus) = false) →
      (get (attempt + k)).processingStatus = some "DONE" →
      pollReportAux get attempt n = (.done (get (attempt + k)).reportDocumentId, k + 1) := by
  intro k
  induction k with
  | zero =>
    intro n attempt hn _ hdone
    obtain ⟨m, rfl⟩ : ∃ m, n = m + 1 := ⟨n - 1, by omega⟩
    rw [Nat.add_zero] at hdone
    simp [pollReportAux, hdone]
  | succ k ih =>
    intro n attempt hn h hdone
    obtain ⟨m, rfl⟩ : ∃ m, n = m + 1 := ⟨n - 1, by omega⟩
    have h0 := h 0 (Nat.succ_pos k)
    rw [Nat.add_zero] at h0
    rw [isTerminalStatus] at h0
    simp only [Bool.or_eq_false_iff, beq_eq_false_iff_ne, ne_eq] at h0
    obtain ⟨⟨hd, hf⟩, hc⟩ := h0
    have harith : attempt + (k + 1) = attempt + 1 + k := by omega
    rw [harith] at hdone
    have hrec := ih m (attempt + 1) (by omega)
      (by
        intro i hi
        have := h (i + 1) (by omega)
        have harith2 : attempt + (i + 1) = attempt + 1 + i := by omega
        rwa [harith2] at this)
      hdone
    simp [pollReportAux, hd, hf, hc, hrec, harith]

/-- The poll loop returns an immediate failure only for the statuses
`FATAL` and `CANCELLED`. -/
theorem pollReportAux_failed (get : ℕ → PollPayload) :
    ∀ (n attempt : ℕ) (s : Option String),
      (pollReportAux get attempt n).1 = .failed s →
      s = some "FATAL" ∨ s = some "CANCELLED" := by
  intro n
  induction n with
  | zero => intro attempt s h; simp [pollReportAux] at h
  | succ n ih =>
    intro attempt s h
    rw [pollReportAux] at h
    by_cases hd : (get attempt).processingStatus = some "DONE"
    · simp [hd] at h
    · by_cases hfc : (get attempt).processingStatus = some "FATAL" ∨
          (get attempt).processingStatus = some "CANCELLED"
      · simp [hd, hfc] at h
        rw [← h]
        exact hfc
      · simp [hd, hfc] at h
        exact ih (attempt + 1) s h

/-- The poll loop never performs more polls than its attempt ceiling. -/
theorem pollReportAux_count_le (get : ℕ → PollPayload) :
    ∀ (n attempt : ℕ), (pollReportAux get attempt n).2 ≤ n := by
  intro n
  induction n with
  | zero => intro attempt; simp [pollReportAux]
  | succ n ih =>
    intro attempt
    rw [pollReportAux]
    by_cases hd : (get attempt).processingStatus = some "DONE"
    · simp [hd]
    · by_cases hfc : (get attempt).processingStatus = some "FATAL" ∨
          (get attempt).processingStatus = some "CANCELLED"
      · simp [hd, hfc]
      · simp only [hd, hfc, if_false]
        have := ih (attempt + 1)
        omega

/-- A run of non-terminal statuses exhausts the `sales_order4` poll loop:
all polls are made and the last payload is kept. -/
theorem sales_pollAux_nonterminal (get : ℕ → PollPayload) :
    ∀ (n attempt : ℕ),
      (∀ i, i < n + 1 → isTerminalStatus ((get (attempt + i)).processingStatus) = false) →
      sales_pollAux get attempt (n + 1) = (some (get (attempt + n)), n + 1) := by
  intro n
  induction n with
  | zero =>
    intro attempt h
    have h0 := h 0 Nat.one_pos
    rw [Nat.add_zero] at h0
    rw [isTerminalStatus] at h0
    simp only [Bool.or_eq_false_iff, beq_eq_false_iff_ne, ne_eq] at h0
    obtain ⟨⟨hd, hf⟩, hc⟩ := h0
    simp [sales_pollAux, hd, hf, hc]
  | succ n ih =>
    intro attempt h
    have h0 := h 0 (Nat.succ_pos (n + 1))
    rw [Nat.add_zero] at h0
    rw [isTerminalStatus] at h0
    simp only [Bool.or_eq_false_iff, beq_eq_false_iff_ne, ne_eq] at h0
    obtain ⟨⟨hd, hf⟩, hc⟩ := h0
    have hrec := ih (attempt + 1) (by
      intro i hi
      have := h (i + 1) (by omega)
      have harith : attempt + (i + 1) = attempt + 1 + i := by omega
      rwa [harith] at this)
    have harith : attempt + 1 + n = attempt + (n + 1) := by omega
    rw [harith] at hrec
    have hcond : ¬((get attempt).processingStatus = some "DONE" ∨
        (get attempt).processingStatus = some "FATAL" ∨
        (get attempt).processingStatus = some "CANCELLED") := by
      simp [hd, hf, hc]
    rw [sales_pollAux, if_neg hcond, if_neg (Nat.succ_ne_zero n)]
    rw [hrec]

/-- The `sales_order4` poll loop stops at the first terminal status
(`DONE`, `FATAL` or `CANCELLED`) and keeps that payload. -/
theorem sales_pollAux_terminal (get : ℕ → PollPayload) :
    ∀ (k n attempt : ℕ), k < n →
      (∀ i, i < k → isTerminalStatus ((get (attempt + i)).processingStatus) = false) →
      isTerminalStatus ((get (attempt + k)).processingStatus) = true →
      sales_pollAux get attempt n = (some (get (attempt + k)), k + 1) := by
  intro k
  induction k with
  | zero =>
    intro n attempt hn _ hterm
    obtain ⟨m, rfl⟩ : ∃ m, n = m + 1 := ⟨n - 1, by omega⟩
    rw [Nat.add_zero] at hterm
    rw [isTerminalStatus_iff] at hterm
    simp [sales_pollAux, hterm]
  | succ k ih =>
    intro n attempt hn h hterm
    obtain ⟨m, rfl⟩ : ∃ m, n = m + 1 := ⟨n - 1, by omega⟩
    have h0 := h 0 (Nat.succ_pos k)
    rw [Nat.add_zero] at h0
    rw [isTerminalStatus] at h0
    simp only [Bool.or_eq_false_iff, beq_eq_false_iff_ne, ne_eq] at h0
    obtain ⟨⟨hd, hf⟩, hc⟩ := h0
    have hm : m ≠ 0 := by omega
    have harith : attempt + (k + 1) = attempt + 1 + k := by omega
    rw [harith] at hterm
    have hrec := ih m (attempt + 1) (by omega)
      (by
        intro i hi
        have := h (i + 1) (by omega)
        have harith2 : attempt + (i + 1) = attempt + 1 + i := by omega
        rwa [harith2] at this)
      hterm
    simp [sales_pollAux, hd, hf, hc, hm, hrec, harith]

/-- The `sales_order4` poll loop never performs more polls than its ceiling. -/
theorem sales_pollAux_count_le (get : ℕ → PollPayload) :
    ∀ (n attempt : ℕ), (sales_pollAux get attempt n).2 ≤ n := by
  intro n
  induction n with
  | zero => intro attempt; simp [sales_pollAux]
  | succ n ih =>
    intro attempt
    rw [sales_pollAux]
    by_cases hterm : (get attempt).processingStatus = some "DONE" ∨
        (get attempt).processingStatus = some "FATAL" ∨
        (get attempt).processingStatus = some "CANCELLED"
    · simp [hterm]
    · by_cases hn : n = 0
      · simp [hterm, hn]
      · simp only [hterm, hn, if_false]
        have := ih (attempt + 1)
        omega

/-! ## Claim theorems -/

/-- Claim C1: for every financial-events payload the flattener emits exactly
one row per shipment item; in each row the item price is the sum of the
`Principal` charge amounts, the shipping price is the sum of the
`ShippingCharge` charge amounts, the fee total is the raw sum of all fee
amounts, total revenue is item price plus shipping price, and net proceeds is
total revenue plus the fee total; the synthetic item with one `Principal`
charge of 100, one `ShippingCharge` of 10 and one fee of -15 yields total
revenue 110 and net proceeds 95. -/
theorem claim_C1_flattener_arithmetic :
    (∀ p : FinancialEventsPayload,
      (process_financial_events p).length =
        (p.ShipmentEventList.map (fun e => e.ShipmentItemList.length)).sum) ∧
    (∀ (e : ShipmentEvent) (item : ShipmentItem),
      (processItem e item).totalRevenue =
        ((item.ItemChargeList.filter (fun c => c.ChargeType = some "Principal")).map
            chargeAmountValue).sum +
        ((item.ItemChargeList.filter (fun c => c.ChargeType = some "ShippingCharge")).map
            chargeAmountValue).sum ∧
      (processItem e item).amazonFees = (item.ItemFeeList.map feeAmountValue).sum ∧
      (processItem e item).netProceeds =
        (processItem e item).totalRevenue + (processItem e item).amazonFees) ∧
    ((process_financial_events syntheticPayload).map
        (fun r => (r.totalRevenue, r.netProceeds)) = [(110, 95)]) := by
  refine ⟨?_, ?_, ?_⟩
  · intro p
    simp [process_financial_events, Function.comp_def]
  · intro e item
    refine ⟨?_, ?_, ?_⟩
    · show (itemChargeTotals item).1 + (itemChargeTotals item).2 = _
      rw [itemChargeTotals, foldl_chargeStep_fst, foldl_chargeStep_snd, zero_add, zero_add]
    · show itemFeesTotal item = _
      rw [itemFeesTotal, foldl_feeAmount, zero_add]
    · rfl
  · norm_num [process_financial_events, syntheticPayload, syntheticItem, processItem,
      itemChargeTotals, itemFeesTotal, chargeStep, chargeAmountValue, feeAmountValue,
      itemCurrency]
    simp +decide
    norm_num

/-- Claim C9: a financial-events payload with zero shipment events flattens to
the zero-row table, and a downloaded report whose decoded text is empty (after
stripping) yields the zero-row table rather than a failure. -/
theorem claim_C9_empty_inputs :
    process_financial_events { ShipmentEventList := [] } = [] ∧
    (∀ (parse : List ℕ → List (List ℕ)) (text : List ℕ),
      text.all isPythonSpace = true → get_amazon_report_finalize parse text = some []) := by
  constructor
  · rfl
  · intro parse text h
    simp [get_amazon_report_finalize, h]

/-- Witness for C9 at a concrete all-whitespace report text. -/
theorem claim_C9_witness :
    get_amazon_report_finalize (fun _ => [[114]]) [32, 9, 10] = some [] :=
  claim_C9_empty_inputs.2 (fun _ => [[114]]) [32, 9, 10] (by decide)

/-- Claim C10: the decode step is total: a byte string that decodes as UTF-8
is returned as its UTF-8 decoding, a byte string that does not falls back to
Latin-1, and Latin-1 decoding succeeds on every byte string (one code point
per byte), so the decode step always returns some text. -/
theorem claim_C10_decode_total :
    ∀ bs : List (Fin 256),
      (∀ s, utf8Decode bs = some s → decodeReportBytes bs = s) ∧
      (utf8Decode bs = none → decodeReportBytes bs = latin1Decode bs) ∧
      (latin1Decode bs).length = bs.length := by
  intro bs
  refine ⟨?_, ?_, ?_⟩
  · intro s h
    simp [decodeReportBytes, h]
  · intro h
    simp [decodeReportBytes, h]
  · simp [latin1Decode]

/-- Witness for C10: valid UTF-8 bytes decode as UTF-8, and the invalid byte
`0xFF` falls back to Latin-1. -/
theorem claim_C10_witness :
    decodeReportBytes [104, 105] = [104, 105] ∧
    decodeReportBytes [255] = latin1Decode [255] :=
  ⟨(claim_C10_decode_total [104, 105]).1 [104, 105] (by decide),
   (claim_C10_decode_total [255]).2.1 (by decide)⟩

/-- Claim C4: a row whose currency has no entry in the rate table is
converted with rate exactly 1.0, so its converted monetary values equal the
originals; an empty rate table skips conversion and returns the table
unchanged, and a non-empty rate table converts every row. -/
theorem claim_C4_missing_rate_identity :
    (∀ (rates : List (String × ℚ)) (hasExpenses hasCourier : Bool) (r : MoneyRow),
      r.currency.bind (fun code => rates.lookup code) = none →
      lookupRate rates r.currency = 1 ∧
      (convertRow rates hasExpenses hasCourier r).totalRevenueINR = r.totalRevenue ∧
      (convertRow rates hasExpenses hasCourier r).netProceedsINR = r.netProceeds ∧
      (convertRow rates hasExpenses hasCourier r).amazonFeesINR = r.amazonFees ∧
      (hasExpenses = true →
        (convertRow rates hasExpenses hasCourier r).expensesINR = some r.expenses) ∧
      (hasCourier = true →
        (convertRow rates hasExpenses hasCourier r).courierChargesINR = some r.courierCharges)) ∧
    (∀ (hasExpenses hasCourier : Bool) (rows : List MoneyRow),
      convert_df_to_inr [] hasExpenses hasCourier rows = Sum.inl rows) ∧
    (∀ (rates : List (String × ℚ)) (hasExpenses hasCourier : Bool) (rows : List MoneyRow),
      rates ≠ [] →
      convert_df_to_inr rates hasExpenses hasCourier rows =
        Sum.inr (rows.map (convertRow rates hasExpenses hasCourier))) := by
  refine ⟨?_, ?_, ?_⟩
  · intro rates hasExpenses hasCourier r h
    have hrate : lookupRate rates r.currency = 1 := by
      rcases hcur : r.currency with _ | code
      · rfl
      · rw [hcur] at h
        simp only [Option.some_bind] at h
        simp [lookupRate, h]
    refine ⟨hrate, ?_, ?_, ?_, ?_, ?_⟩ <;> simp [convertRow, hrate]
  · intro hasExpenses hasCourier rows
    simp [convert_df_to_inr]
  · intro rates hasExpenses hasCourier rows h
    simp [convert_df_to_inr, h]

/-- Witness for C4: a row in EUR converted against a table that only quotes
USD keeps its monetary values. -/
theorem claim_C4_witness :
    lookupRate [("USD", (83 : ℚ))] (some "EUR") = 1 ∧
    (convertRow [("USD", (83 : ℚ))] true false
        { currency := some "EUR", totalRevenue := 7, netProceeds := 5, amazonFees := -2,
          expenses := 1, courierCharges := 0 }).totalRevenueINR = 7 := by
  have h := claim_C4_missing_rate_identity.1 [("USD", (83 : ℚ))] true false
    { currency := some "EUR", totalRevenue := 7, netProceeds := 5, amazonFees := -2,
      expenses := 1, courierCharges := 0 } (by decide)
  exact ⟨h.1, h.2.1⟩

/-- Claim C2: the report-polling driver stops at the first poll returning the
terminal status `DONE` and proceeds with that payload's document reference,
and on a status sequence that never reaches a terminal state it performs no
more polls than the attempt ceiling and returns the null timeout result.
Covers the `streamlit_app.py` loop (with its document-reference extraction)
and the `sales_order4.py` loop. -/
theorem claim_C2_poll_driver :
    (∀ (get : ℕ → PollPayload) (k : ℕ),
      k < streamlit_MAX_POLL_ATTEMPTS →
      (∀ i, i < k → isTerminalStatus ((get i).processingStatus) = false) →
      (get k).processingStatus = some "DONE" →
      pollReport get streamlit_MAX_POLL_ATTEMPTS =
        (.done (get k).reportDocumentId, k + 1) ∧
      (∀ s, (get k).reportDocumentId = some s → s ≠ "" →
        get_amazon_report_docRef get = some s)) ∧
    (∀ get : ℕ → PollPayload,
      (∀ i, i < streamlit_MAX_POLL_ATTEMPTS →
        isTerminalStatus ((get i).processingStatus) = false) →
      pollReport get streamlit_MAX_POLL_ATTEMPTS =
        (.timedOut, streamlit_MAX_POLL_ATTEMPTS) ∧
      get_amazon_report_docRef get = none) ∧
    (∀ (get : ℕ → PollPayload) (k : ℕ),
      k < sales_POLL_ATTEMPTS →
      (∀ i, i < k → isTerminalStatus ((get i).processingStatus) = false) →
      (get k).processingStatus = some "DONE" →
      sales_pollAux get 0 sales_POLL_ATTEMPTS = (some (get k), k + 1) ∧
      download_and_process_report_poll get = some ((get k).reportDocumentId)) ∧
    (∀ get : ℕ → PollPayload,
      (∀ i, i < sales_POLL_ATTEMPTS → isTerminalStatus ((get i).processingStatus) = false) →
      download_and_process_report_poll get = none ∧
      (sales_pollAux get 0 sales_POLL_ATTEMPTS).2 = sales_POLL_ATTEMPTS) := by
  refine ⟨?_, ?_, ?_, ?_⟩
  · intro get k hk hpre hdone
    have h1 : pollReport get streamlit_MAX_POLL_ATTEMPTS =
        (.done (get k).reportDocumentId, k + 1) := by
      have := pollReportAux_done get k streamlit_MAX_POLL_ATTEMPTS 0 hk
        (by intro i hi; simpa using hpre i hi) (by simpa using hdone)
      simpa [pollReport] using this
    refine ⟨h1, ?_⟩
    intro s hdoc hs
    simp [get_amazon_report_docRef, h1, hdoc, hs]
  · intro get h
    have h1 : pollReport get streamlit_MAX_POLL_ATTEMPTS =
        (.timedOut, streamlit_MAX_POLL_ATTEMPTS) := by
      have := pollReportAux_timeout get streamlit_MAX_POLL_ATTEMPTS 0
        (by intro i hi; simpa using h i hi)
      simpa [pollReport] using this
    exact ⟨h1, by simp [get_amazon_report_docRef, h1]⟩
  · intro get k hk hpre hdone
    have hterm : isTerminalStatus ((get (0 + k)).processingStatus) = true := by
      rw [isTerminalStatus_iff]
      left
      simpa using hdone
    have h1 := sales_pollAux_terminal get k sales_POLL_ATTEMPTS 0 hk
      (by intro i hi; simpa using hpre i hi) hterm
    rw [Nat.zero_add] at h1
    exact ⟨h1, by simp [download_and_process_report_poll, h1, hdone]⟩
  · intro get h
    have h20 : sales_pollAux get 0 sales_POLL_ATTEMPTS = (some (get 19), 20) := by
      have := sales_pollAux_nonterminal get 19 0
        (by intro i hi; simpa using h i (by simpa using hi))
      simpa using this
    have hlast : ¬ (get 19).processingStatus = some "DONE" := by
      have h19 := h 19 (by decide)
      rw [isTerminalStatus] at h19
      simp only [Bool.or_eq_false_iff, beq_eq_false_iff_ne, ne_eq] at h19
      exact h19.1.1
    constructor
    · simp [download_and_process_report_poll, h20, hlast]
    · rw [h20]
      rfl

/-- Witness for C2: the mock sequence `[in-progress, in-progress, done]`
stops after the third poll with document id `doc-1`; the never-terminal
sequence times out after the full ceiling with the null result. -/
theorem claim_C2_witness :
    pollReport mockDoneSeq streamlit_MAX_POLL_ATTEMPTS = (.done (some "doc-1"), 3) ∧
    get_amazon_report_docRef mockDoneSeq = some "doc-1" ∧
    pollReport mockStuckSeq streamlit_MAX_POLL_ATTEMPTS =
      (.timedOut, streamlit_MAX_POLL_ATTEMPTS) ∧
    get_amazon_report_docRef mockStuckSeq = none ∧
    download_and_process_report_poll mockStuckSeq = none := by
  have h1 := claim_C2_poll_driver.1 mockDoneSeq 2 (by decide)
    (fun i hi => by simp [mockDoneSeq, hi, isTerminalStatus]) rfl
  have h2 := claim_C2_poll_driver.2.1 mockStuckSeq (fun _ _ => rfl)
  have h4 := claim_C2_poll_driver.2.2.2 mockStuckSeq (fun _ _ => rfl)
  exact ⟨h1.1, h1.2 "doc-1" rfl (by decide), h2.1, h2.2, h4.1⟩

/-- Claim C8: the polling drivers treat only `DONE`, `FATAL` and `CANCELLED`
as reasons to stop: an immediate failure is only ever returned for `FATAL` or
`CANCELLED`, and on any sequence of statuses outside the terminal set the
loops keep polling until the attempt ceiling is exhausted. -/
theorem claim_C8_unknown_status_keeps_polling :
    (∀ (get : ℕ → PollPayload) (n : ℕ) (s : Option String),
      (pollReportAux get 0 n).1 = .failed s →
      s = some "FATAL" ∨ s = some "CANCELLED") ∧
    (∀ (get : ℕ → PollPayload) (n : ℕ),
      (∀ i, i < n → isTerminalStatus ((get i).processingStatus) = false) →
      pollReportAux get 0 n = (.timedOut, n)) ∧
    (∀ get : ℕ → PollPayload,
      (∀ i, i < sales_POLL_ATTEMPTS → isTerminalStatus ((get i).processingStatus) = false) →
      sales_pollAux get 0 sales_POLL_ATTEMPTS = (some (get 19), sales_POLL_ATTEMPTS)) := by
  refine ⟨?_, ?_, ?_⟩
  · intro get n s h
    exact pollReportAux_failed get n 0 s h
  · intro get n h
    exact pollReportAux_timeout get n 0 (by intro i hi; simpa using h i hi)
  · intro get h
    have := sales_pollAux_nonterminal get 19 0
      (by intro i hi; simpa using h i (by simpa using hi))
    simpa using this

/-- Witness for C8: a first-poll `FATAL` yields a failure with that status; a
constant unrecognized status exhausts both loops without an early failure. -/
theorem claim_C8_witness :
    ((some "FATAL" : Option String) = some "FATAL" ∨
      (some "FATAL" : Option String) = some "CANCELLED") ∧
    pollReportAux mockStuckSeq 0 5 = (.timedOut, 5) ∧
    sales_pollAux mockStuckSeq 0 sales_POLL_ATTEMPTS =
      (some (mockStuckSeq 19), sales_POLL_ATTEMPTS) :=
  ⟨claim_C8_unknown_status_keeps_polling.1 mockFatalSeq 1 (some "FATAL") rfl,
   claim_C8_unknown_status_keeps_polling.2.1 mockStuckSeq 5 (fun _ _ => rfl),
   claim_C8_unknown_status_keeps_polling.2.2 mockStuckSeq (fun _ _ => rfl)⟩

/-- Counterexample for C6: the `sales_order4.py` poll loop has an attempt
ceiling of 20, which is not between 60 and 120 as the claim states. -/
theorem claim_C6_counterexample :
    sales_POLL_ATTEMPTS = 20 ∧ ¬ (60 ≤ sales_POLL_ATTEMPTS) := by decide

/-- Claim C6 (amended): every report-polling loop polls at a fixed interval
between 10 and 15 seconds; the attempt ceilings are 120 (`streamlit_app.py`),
120 (`Listing_report.py`) and 20 (`sales_order4.py`), so between 20 and 120;
and each loop always terminates within its ceiling regardless of the status
sequence returned. -/
theorem claim_C6_poll_bounds :
    streamlit_POLL_INTERVAL_SECONDS = 10 ∧ listing_POLL_INTERVAL_SECONDS = 15 ∧
    sales_POLL_INTERVAL_SECONDS = 15 ∧
    (10 ≤ streamlit_POLL_INTERVAL_SECONDS ∧ streamlit_POLL_INTERVAL_SECONDS ≤ 15) ∧
    (10 ≤ listing_POLL_INTERVAL_SECONDS ∧ listing_POLL_INTERVAL_SECONDS ≤ 15) ∧
    (10 ≤ sales_POLL_INTERVAL_SECONDS ∧ sales_POLL_INTERVAL_SECONDS ≤ 15) ∧
    streamlit_MAX_POLL_ATTEMPTS = 120 ∧ listing_MAX_POLL_ATTEMPTS = 120 ∧
    sales_POLL_ATTEMPTS = 20 ∧
    (20 ≤ sales_POLL_ATTEMPTS ∧ streamlit_MAX_POLL_ATTEMPTS ≤ 120 ∧
      listing_MAX_POLL_ATTEMPTS ≤ 120) ∧
    (∀ get : ℕ → PollPayload,
      (pollReport get streamlit_MAX_POLL_ATTEMPTS).2 ≤ streamlit_MAX_POLL_ATTEMPTS) ∧
    (∀ get : ℕ → PollPayload,
      (pollReport get listing_MAX_POLL_ATTEMPTS).2 ≤ listing_MAX_POLL_ATTEMPTS) ∧
    (∀ get : ℕ → PollPayload,
      (sales_pollAux get 0 sales_POLL_ATTEMPTS).2 ≤ sales_POLL_ATTEMPTS) := by
  refine ⟨rfl, rfl, rfl, by decide, by decide, by decide, rfl, rfl, rfl, by decide, ?_, ?_, ?_⟩
  · intro get
    exact pollReportAux_count_le get streamlit_MAX_POLL_ATTEMPTS 0
  · intro get
    exact pollReportAux_count_le get listing_MAX_POLL_ATTEMPTS 0
  · intro get
    exact sales_pollAux_count_le get sales_POLL_ATTEMPTS 0

/-- Claim C3: per (account, region) key, a call made while the cached token
satisfies `now < expires_at` returns the cached token with no refresh
request; a call made at or after the stored expiry with working credentials
and a successful refresh issues exactly one request and stores the token with
expiry `now + expires_in - 60`; and any token returned without a network call
was within its stored expiry at call time. -/
theorem claim_C3_token_cache :
    (∀ (cache : TokenCache) (key : String × String) (now : ℤ) (t : String) (exp : ℤ)
        (credsPresent : Bool) (resp : Option (String × ℤ)),
      (cache key).token = some t → (cache key).expires_at = some exp → now < exp →
      get_access_token cache key now credsPresent resp = (some t, cache, 0)) ∧
    (∀ (cache : TokenCache) (key : String × String) (now exp : ℤ) (tok : String)
        (expiresIn : ℤ),
      (cache key).expires_at = some exp → exp ≤ now →
      (get_access_token cache key now true (some (tok, expiresIn))).1 = some tok ∧
      (get_access_token cache key now true (some (tok, expiresIn))).2.2 = 1 ∧
      (get_access_token cache key now true (some (tok, expiresIn))).2.1 key =
        { token := some tok, expires_at := some (now + (expiresIn - 60)) }) ∧
    (∀ (cache : TokenCache) (key : String × String) (now : ℤ) (credsPresent : Bool)
        (resp : Option (String × ℤ)) (t : String),
      (get_access_token cache key now credsPresent resp).1 = some t →
      (get_access_token cache key now credsPresent resp).2.2 = 0 →
      ∃ exp : ℤ, (cache key).expires_at = some exp ∧ now < exp) := by
  refine ⟨?_, ?_, ?_⟩
  · intro cache key now t exp credsPresent resp h1 h2 h3
    simp [get_access_token, h1, h2, h3]
  · intro cache key now exp tok expiresIn h1 h2
    rcases htok : (cache key).token with _ | t0
    · simp [get_access_token, htok, h1]
    · simp [get_access_token, htok, h1, not_lt.mpr h2]
  · intro cache key now credsPresent resp t h1 h2
    rcases htok : (cache key).token with _ | t0
    · cases credsPresent
      · simp [get_access_token, htok] at h1
      · rcases resp with _ | ⟨tok, expiresIn⟩
        · simp [get_access_token, htok] at h1
        · simp [get_access_token, htok] at h2
    · rcases hexp : (cache key).expires_at with _ | exp
      · cases credsPresent
        · simp [get_access_token, htok, hexp] at h1
        · rcases resp with _ | ⟨tok, expiresIn⟩
          · simp [get_access_token, htok, hexp] at h1
          · simp [get_access_token, htok, hexp] at h2
      · by_cases hlt : now < exp
        · exact ⟨exp, rfl, hlt⟩
        · cases credsPresent
          · simp [get_access_token, htok, hexp, hlt] at h1
          · rcases resp with _ | ⟨tok, expiresIn⟩
            · simp [get_access_token, htok, hexp, hlt] at h1
            · simp [get_access_token, htok, hexp, hlt] at h2

/-- Witness for C3: a valid cached token is returned without a refresh; after
the stored expiry one refresh happens and the new expiry carries the 60s
margin. -/
theorem claim_C3_witness :
    get_access_token witnessCache ("na", "Frienemy") 500 true none =
      (some "cached-token", witnessCache, 0) ∧
    (get_access_token witnessCache ("na", "Frienemy") 2000 true (some ("fresh", 3600))).1 =
      some "fresh" ∧
    (get_access_token witnessCache ("na", "Frienemy") 2000 true (some ("fresh", 3600))).2.2 = 1 ∧
    (get_access_token witnessCache ("na", "Frienemy") 2000 true
        (some ("fresh", 3600))).2.1 ("na", "Frienemy") =
      { token := some "fresh", expires_at := some (2000 + (3600 - 60)) } := by
  have h1 := claim_C3_token_cache.1 witnessCache ("na", "Frienemy") 500 "cached-token" 1000
    true none rfl rfl (by decide)
  have h2 := claim_C3_token_cache.2.1 witnessCache ("na", "Frienemy") 2000 1000 "fresh" 3600
    rfl (by decide)
  exact ⟨h1, h2.1, h2.2.1, h2.2.2⟩

/-- Counterexample for C5: the decoder of `Listing_report.py` (and likewise
`sales_order4.py`) does not decompress a deflate/ZLIB-indicated body — it
passes the bytes through raw, so it does not agree with any zlib decompressor
on every input. -/
theorem claim_C5_counterexample :
    listing_decompress (fun bs => bs) (some "ZLIB") [1, 2, 3] = [1, 2, 3] ∧
    ¬ (∀ (zlibDecompress : List (Fin 256) → List (Fin 256)) (content : List (Fin 256)),
        listing_decompress (fun bs => bs) (some "ZLIB") content = zlibDecompress content) := by
  constructor
  · rfl
  · intro h
    have := h (fun _ => []) [1, 2, 3]
    simp [listing_decompress] at this

/-- Claim C5 (amended): the `streamlit_app.py` decoder decompresses on the
`GZIP` indicator, decompresses on the `ZLIB` (deflate) indicator, and passes
raw bytes through otherwise; the `Listing_report.py` and `sales_order4.py`
decoders decompress only on `GZIP` and pass everything else (including
`ZLIB`) through raw; gzip-compressing any content and running it through any
of the decoders reproduces the original, and an uncompressed body passes
through unchanged. -/
theorem claim_C5_decompress :
    ∀ (gzipDecompress zlibDecompress : List (Fin 256) → List (Fin 256))
      (alg : Option String) (content : List (Fin 256)),
      (alg = some "GZIP" →
        streamlit_decompress gzipDecompress zlibDecompress alg content =
          gzipDecompress content ∧
        listing_decompress gzipDecompress alg content = gzipDecompress content ∧
        sales_decompress gzipDecompress alg content = gzipDecompress content) ∧
      (alg = some "ZLIB" →
        streamlit_decompress gzipDecompress zlibDecompress alg content =
          zlibDecompress content ∧
        listing_decompress gzipDecompress alg content = content ∧
        sales_decompress gzipDecompress alg content = content) ∧
      (alg ≠ some "GZIP" → alg ≠ some "ZLIB" →
        streamlit_decompress gzipDecompress zlibDecompress alg content = content ∧
        listing_decompress gzipDecompress alg content = content ∧
        sales_decompress gzipDecompress alg content = content) ∧
      (∀ gzipCompress : List (Fin 256) → List (Fin 256),
        (∀ bs, gzipDecompress (gzipCompress bs) = bs) →
        streamlit_decompress gzipDecompress zlibDecompress (some "GZIP")
          (gzipCompress content) = content ∧
        listing_decompress gzipDecompress (some "GZIP") (gzipCompress content) = content ∧
        sales_decompress gzipDecompress (some "GZIP") (gzipCompress content) = content) := by
  intro gzipDecompress zlibDecompress alg content
  refine ⟨?_, ?_, ?_, ?_⟩
  · intro h
    subst h
    simp [streamlit_decompress, listing_decompress, sales_decompress]
  · intro h
    subst h
    refine ⟨?_, ?_, ?_⟩ <;> simp +decide [streamlit_decompress, listing_decompress,
      sales_decompress]
  · intro h1 h2
    refine ⟨?_, ?_, ?_⟩ <;> simp [streamlit_decompress, listing_decompress,
      sales_decompress, h1, h2]
  · intro gzipCompress hround
    refine ⟨?_, ?_, ?_⟩ <;> simp [streamlit_decompress, listing_decompress,
      sales_decompress, hround]

/-- Witness for C5 (amended): the gzip round trip with an identity
compressor pair, and an uncompressed body passing through the
`Listing_report.py` decoder unchanged. -/
theorem claim_C5_witness :
    streamlit_decompress (fun bs => bs) (fun bs => bs) (some "GZIP") [7, 8] = [7, 8] ∧
    listing_decompress (fun bs => bs) none [7, 8] = [7, 8] := by
  have h1 := claim_C5_decompress (fun bs => bs) (fun bs => bs) (some "GZIP") [7, 8]
  have h2 := claim_C5_decompress (fun bs => bs) (fun bs => bs) none [7, 8]
  exact ⟨(h1.2.2.2 (fun bs => bs) (fun _ => rfl)).1,
    (h2.2.2.1 (by decide) (by decide)).2.1⟩

/-- Counterexample for C7: on an item whose first charge carries an amount
dictionary without a currency code while the second declares `USD`, the
flattener sets the row's currency to `none`; the first charge entry that
declares a currency code declares `USD`, so the claim's rule disagrees with
the code. -/
theorem claim_C7_counterexample :
    (processItem mixedCurrencyEvent mixedCurrencyItem).currency = none ∧
    specFirstDeclaredCurrency mixedCurrencyItem = some "USD" := by
  constructor
  · rfl
  · rfl

/-- Claim C7 (amended): the flattener sets the row's currency to the currency
code (possibly absent) carried by the first charge entry whose `ChargeAmount`
dictionary is present; when no charge carries a `ChargeAmount` — in
particular when the charge list is empty — the currency is `none`, and an
absent currency falls back to the 1.0 conversion rate downstream. -/
theorem claim_C7_currency_rule :
    ∀ (e : ShipmentEvent) (item : ShipmentItem) (rates : List (String × ℚ)),
      (processItem e item).currency = itemCurrency item ∧
      (item.ItemChargeList = [] → (processItem e item).currency = none) ∧
      (∀ (c : Charge) (cs : List Charge) (m : MoneyDict),
        item.ItemChargeList = c :: cs → c.ChargeAmount = some m →
        (processItem e item).currency = m.CurrencyCode) ∧
      ((∀ c ∈ item.ItemChargeList, c.ChargeAmount = none) →
        (processItem e item).currency = none) ∧
      ((processItem e item).currency = none →
        lookupRate rates ((processItem e item).currency) = 1) := by
  intro e item rates
  refine ⟨rfl, ?_, ?_, ?_, ?_⟩
  · intro h
    show itemCurrency item = none
    rw [itemCurrency, h]
    rfl
  · intro c cs m hlist hca
    show itemCurrency item = m.CurrencyCode
    rw [itemCurrency, hlist]
    rw [List.find?_cons_of_pos _ (by simp [hca])]
    simp [hca]
  · intro h
    show itemCurrency item = none
    rw [itemCurrency]
    have hfind : item.ItemChargeList.find? (fun c => c.ChargeAmount.isSome) = none := by
      rw [List.find?_eq_none]
      intro c hc
      simp [h c hc]
    simp [hfind]
  · intro h
    rw [h]
    rfl

/-- Witness for C7 (amended): an item with an empty charge list gets currency
`none`, which converts with the fallback rate 1.0. -/
theorem claim_C7_witness :
    (processItem mixedCurrencyEvent noChargeItem).currency = none ∧
    lookupRate [("USD", (83 : ℚ))]
      ((processItem mixedCurrencyEvent noChargeItem).currency) = 1 := by
  have h := claim_C7_currency_rule mixedCurrencyEvent noChargeItem [("USD", (83 : ℚ))]
  have hnone := h.2.1 rfl
  exact ⟨hnone, h.2.2.2.2 hnone⟩
